import Mathlib

/-!
Shallow embedding of the geo-incident-tracker front end
(src/components/AccidentMap.tsx, src/components/MapboxTokenInput.tsx,
src/pages/Index.tsx) and proofs about its claimed behaviour.

React component state becomes an explicit `BoardState` record; each event
handler of the source becomes a state-transforming function; nondeterministic
environment values (the map click coordinate, `Date.now()`, ISO timestamp
strings, the `toDateString` rendering of a timestamp) become explicit
parameters of the corresponding operation.
-/

namespace GeoIncident

/-- Model of JavaScript `String.prototype.trim()`: drop whitespace from both
ends of the string. -/
def trimJS (s : String) : String :=
  String.mk
    (((s.toList.dropWhile Char.isWhitespace).reverse.dropWhile
        Char.isWhitespace).reverse)

/-- Severity enumeration of `Accident.severity` in AccidentMap.tsx
(`'minor' | 'moderate' | 'severe'`). -/
inductive Severity where
  | minor
  | moderate
  | severe
deriving DecidableEq, Repr

/-- A `{ lat, lng }` coordinate pair as captured by the map click handler
(`setTempMarkerPosition({ lat: e.lngLat.lat, lng: e.lngLat.lng })`).
JavaScript numbers are modelled as rationals; the claims only copy and
compare coordinates, never do float arithmetic on them. -/
structure Coord where
  lat : ℚ
  lng : ℚ
deriving DecidableEq, Repr

/-- The `Accident` interface of AccidentMap.tsx. `injuries` is an `Int`
because the onChange handler stores whatever `parseInt(...) || 0` yields,
which can be negative. -/
structure Accident where
  id : String
  latitude : ℚ
  longitude : ℚ
  timestamp : String
  severity : Severity
  description : String
  injuries : Int
deriving DecidableEq, Repr

/-- The draft-form state `newAccident` of AccidentMap.tsx
(`{ severity, description, injuries }`). -/
structure NewAccidentForm where
  severity : Severity
  description : String
  injuries : Int
deriving DecidableEq, Repr

/-- The `useState` initial value / post-submit reset value of the draft form:
`{ severity: 'minor', description: '', injuries: 0 }`. -/
def defaultNewAccident : NewAccidentForm :=
  { severity := Severity.minor, description := "", injuries := 0 }

/-- The state owned by the AccidentMap component: the accident list, the
add-dialog flag, the pending click coordinate (`tempMarkerPosition`) and the
draft form (`newAccident`). -/
structure BoardState where
  accidents : List Accident
  showAddDialog : Bool
  tempMarkerPosition : Option Coord
  newAccident : NewAccidentForm
deriving DecidableEq, Repr

/-- The four seeded sample accidents of the `useState<Accident[]>` initial
value in AccidentMap.tsx (lines 32-70). Their timestamps are produced by
`new Date(...).toISOString()` at component mount, so they are parameters
`t1..t4` of the embedding; every other field is the literal from the source. -/
def initialAccidents (t1 t2 t3 t4 : String) : List Accident :=
  [ { id := "1", latitude := 40.7128, longitude := -74.006,
      timestamp := t1, severity := Severity.moderate,
      description := "Rear-end collision at intersection", injuries := 2 },
    { id := "2", latitude := 40.7130, longitude := -74.0058,
      timestamp := t2, severity := Severity.minor,
      description := "Fender bender", injuries := 0 },
    { id := "3", latitude := 40.7125, longitude := -74.0065,
      timestamp := t3, severity := Severity.severe,
      description := "Multi-vehicle accident", injuries := 4 },
    { id := "4", latitude := 40.7140, longitude := -74.0070,
      timestamp := t4, severity := Severity.minor,
      description := "Side-swipe accident", injuries := 1 } ]

/-- The component state right after mount: seeded accident list, dialog
closed, no pending click, draft form at its defaults. -/
def initialState (t1 t2 t3 t4 : String) : BoardState :=
  { accidents := initialAccidents t1 t2 t3 t4,
    showAddDialog := false,
    tempMarkerPosition := none,
    newAccident := defaultNewAccident }

/-- The map `click` listener (AccidentMap.tsx lines 103-106): stores the
clicked coordinate as the pending click and opens the add dialog. -/
def handleMapClick (c : Coord) (s : BoardState) : BoardState :=
  { s with tempMarkerPosition := some c, showAddDialog := true }

/-- `handleAddAccident` (AccidentMap.tsx lines 294-313). `now` models
`Date.now()` (milliseconds, used for the id string) and `tstamp` models
`new Date().toISOString()`. If there is no pending coordinate it silently
returns; otherwise it appends the new record, closes the dialog, resets the
draft form and clears the pending click. -/
def handleAddAccident (now : Nat) (tstamp : String) (s : BoardState) : BoardState :=
  match s.tempMarkerPosition with
  | none => s
  | some pos =>
      let accident : Accident :=
        { id := toString now,
          latitude := pos.lat,
          longitude := pos.lng,
          timestamp := tstamp,
          severity := s.newAccident.severity,
          description := s.newAccident.description,
          injuries := s.newAccident.injuries }
      { s with
          accidents := s.accidents ++ [accident],
          showAddDialog := false,
          newAccident := defaultNewAccident,
          tempMarkerPosition := none }

/-- The `disabled` condition of the Record Accident button
(`disabled={!newAccident.description.trim()}`, AccidentMap.tsx line 514):
disabled exactly when the trimmed draft description is empty. -/
def recordButtonDisabled (s : BoardState) : Bool :=
  trimJS s.newAccident.description == ""

/-- A user submission attempt through the dialog: the Record Accident button
fires `handleAddAccident` only when it is not disabled. -/
def clickRecordButton (now : Nat) (tstamp : String) (s : BoardState) : BoardState :=
  if recordButtonDisabled s then s else handleAddAccident now tstamp s

/-- The Cancel button's onClick (AccidentMap.tsx lines 504-510):
`() => setShowAddDialog(false)` and nothing else. -/
def cancelDialog (s : BoardState) : BoardState :=
  { s with showAddDialog := false }

/-- The Dialog's `onOpenChange={setShowAddDialog}` (AccidentMap.tsx line 451):
closing the dialog via the overlay/escape sets only the flag. -/
def setShowAddDialog (b : Bool) (s : BoardState) : BoardState :=
  { s with showAddDialog := b }

/-- The severity Select's onValueChange (AccidentMap.tsx lines 461-463). -/
def setSeverity (v : Severity) (s : BoardState) : BoardState :=
  { s with newAccident := { s.newAccident with severity := v } }

/-- The description Textarea's onChange (AccidentMap.tsx lines 496-499). -/
def setDescription (d : String) (s : BoardState) : BoardState :=
  { s with newAccident := { s.newAccident with description := d } }

/-- Digit value of a character in bases up to 16, `none` for a non-digit. -/
def digitVal (c : Char) : Option Nat :=
  if '0' ≤ c ∧ c ≤ '9' then some (c.toNat - '0'.toNat)
  else if 'a' ≤ c ∧ c ≤ 'f' then some (c.toNat - 'a'.toNat + 10)
  else if 'A' ≤ c ∧ c ≤ 'F' then some (c.toNat - 'A'.toNat + 10)
  else none

/-- The longest prefix of `cs` consisting of digits valid in `base`. -/
def takeDigits (base : Nat) : List Char → List Nat
  | [] => []
  | c :: cs =>
      match digitVal c with
      | some v => if v < base then v :: takeDigits base cs else []
      | none => []

/-- Value of a digit list read most-significant first. -/
def natOfDigits (base : Nat) (ds : List Nat) : Nat :=
  ds.foldl (fun n d => n * base + d) 0

/-- Model of JavaScript `parseInt(s)` with the radix argument omitted:
skip leading whitespace, read an optional sign, switch to base 16 after a
`0x`/`0X` prefix, then read the longest run of valid digits; `none` models
the `NaN` result when no digit is found. -/
def parseIntJS (s : String) : Option Int :=
  let cs0 := (trimJS s).toList
  let signAndRest : Int × List Char :=
    match cs0 with
    | '-' :: rest => (-1, rest)
    | '+' :: rest => (1, rest)
    | _ => (1, cs0)
  let baseAndRest : Nat × List Char :=
    match signAndRest.2 with
    | '0' :: 'x' :: rest => (16, rest)
    | '0' :: 'X' :: rest => (16, rest)
    | _ => (10, signAndRest.2)
  match takeDigits baseAndRest.1 baseAndRest.2 with
  | [] => none
  | ds => some (signAndRest.1 * (natOfDigits baseAndRest.1 ds : Int))

/-- `parseInt(e.target.value) || 0` (AccidentMap.tsx line 485): a `NaN`
parse result is replaced by 0; a parsed 0 (or -0) stays 0 either way. -/
def parseIntOr0 (s : String) : Int :=
  (parseIntJS s).getD 0

/-- The injuries Input's onChange (AccidentMap.tsx lines 483-486): the raw
text of the field is run through `parseInt(...) || 0` and stored in the
draft form. -/
def setInjuriesInput (raw : String) (s : BoardState) : BoardState :=
  { s with newAccident := { s.newAccident with injuries := parseIntOr0 raw } }

/-- The record returned by `getStatistics` (AccidentMap.tsx lines 315-323). -/
structure Statistics where
  total : Nat
  todayCount : Nat
  severeCount : Nat
  totalInjuries : Int
deriving DecidableEq, Repr

/-- `getStatistics` (AccidentMap.tsx lines 315-323). `dateOf` models
`new Date(timestamp).toDateString()` and `today` models
`new Date().toDateString()`; both are environment parameters since the Date
library is external to the component. -/
def getStatistics (dateOf : String → String) (today : String)
    (accidents : List Accident) : Statistics :=
  { total := accidents.length,
    todayCount :=
      (accidents.filter (fun a => decide (dateOf a.timestamp = today))).length,
    severeCount :=
      (accidents.filter (fun a => decide (a.severity = Severity.severe))).length,
    totalInjuries := accidents.foldl (fun sum a => sum + a.injuries) 0 }

/-- One user/environment event on the Accident Board: exactly the state
transitions reachable through the component's handlers. -/
inductive Step : BoardState → BoardState → Prop where
  | mapClick (c : Coord) (s : BoardState) : Step s (handleMapClick c s)
  | submit (now : Nat) (tstamp : String) (s : BoardState) :
      Step s (clickRecordButton now tstamp s)
  | cancel (s : BoardState) : Step s (cancelDialog s)
  | openChange (b : Bool) (s : BoardState) : Step s (setShowAddDialog b s)
  | sev (v : Severity) (s : BoardState) : Step s (setSeverity v s)
  | desc (d : String) (s : BoardState) : Step s (setDescription d s)
  | inj (raw : String) (s : BoardState) : Step s (setInjuriesInput raw s)

/-- States of a session: the mount state followed by any event sequence. -/
inductive Reachable : BoardState → Prop where
  | init (t1 t2 t3 t4 : String) : Reachable (initialState t1 t2 t3 t4)
  | step {s s' : BoardState} : Reachable s → Step s s' → Reachable s'

/-- `handleSubmit` of MapboxTokenInput.tsx (lines 15-20): emits the trimmed
token to the parent when the trimmed input is non-empty, otherwise emits
nothing. `some v` models the call `onTokenSubmit(v)`. -/
def tokenHandleSubmit (token : String) : Option String :=
  if trimJS token == "" then none else some (trimJS token)

/-- The `disabled={!token.trim()}` condition of the token form's submit
button (MapboxTokenInput.tsx line 80). -/
def tokenSubmitDisabled (token : String) : Bool :=
  trimJS token == ""

/-- `Index` (src/pages/Index.tsx): renders the Token Gate exactly when the
`mapboxToken` state is falsy, i.e. the empty string. -/
def indexShowsGate (mapboxToken : String) : Bool :=
  mapboxToken == ""

/-- C1: every submission of the add-accident dialog performed while a pending
click coordinate is present appends exactly one new record at the end of the
list, whose latitude/longitude are the pending coordinate and whose severity,
description and injuries are the draft form fields; afterwards the dialog is
closed, the draft form is reset to its defaults and the pending click is
cleared. -/
theorem submit_appends_pending_click (now : Nat) (tstamp : String)
    (s : BoardState) (c : Coord)
    (hd : trimJS s.newAccident.description ≠ "")
    (hp : s.tempMarkerPosition = some c) :
    (clickRecordButton now tstamp s).accidents =
      s.accidents ++
        [{ id := toString now, latitude := c.lat, longitude := c.lng,
           timestamp := tstamp, severity := s.newAccident.severity,
           description := s.newAccident.description,
           injuries := s.newAccident.injuries }] ∧
    (clickRecordButton now tstamp s).showAddDialog = false ∧
    (clickRecordButton now tstamp s).newAccident = defaultNewAccident ∧
    (clickRecordButton now tstamp s).tempMarkerPosition = none := by
  simp only [clickRecordButton, recordButtonDisabled, beq_iff_eq,
    if_neg hd, handleAddAccident, hp]
  refine ⟨?_, ?_, ?_, ?_⟩ <;> trivial

/-- Witness for C1: a concrete submission with pending click (1, 2) and
draft ("crash", severity minor, 0 injuries). -/
theorem submit_appends_pending_click_witness :
    trimJS (setDescription "crash" (handleMapClick ⟨1, 2⟩
        (initialState "a" "b" "c" "d"))).newAccident.description ≠ "" ∧
    (clickRecordButton 5 "t5" (setDescription "crash" (handleMapClick ⟨1, 2⟩
        (initialState "a" "b" "c" "d")))).accidents =
      (setDescription "crash" (handleMapClick ⟨1, 2⟩
        (initialState "a" "b" "c" "d"))).accidents ++
        [{ id := "5", latitude := 1, longitude := 2, timestamp := "t5",
           severity := Severity.minor, description := "crash",
           injuries := 0 }] :=
  ⟨by decide,
    (submit_appends_pending_click 5 "t5"
      (setDescription "crash" (handleMapClick ⟨1, 2⟩
        (initialState "a" "b" "c" "d"))) ⟨1, 2⟩ (by decide) rfl).1⟩

/-- C2: the statistics are a pure function of the record list (and the
current date): `total` is the list length, `severeCount` the number of
records with severity severe, `totalInjuries` the sum of the injuries
fields, `todayCount` the number of records whose rendered calendar date
equals today's. -/
theorem getStatistics_correct (dateOf : String → String) (today : String)
    (accidents : List Accident) :
    (getStatistics dateOf today accidents).total = accidents.length ∧
    (getStatistics dateOf today accidents).severeCount =
      accidents.countP (fun a => decide (a.severity = Severity.severe)) ∧
    (getStatistics dateOf today accidents).totalInjuries =
      (accidents.map (fun a => a.injuries)).sum ∧
    (getStatistics dateOf today accidents).todayCount =
      accidents.countP (fun a => decide (dateOf a.timestamp = today)) := by
  refine ⟨rfl, (List.countP_eq_length_filter _ _).symm, ?_, (List.countP_eq_length_filter _ _).symm⟩
  show accidents.foldl (fun sum a => sum + a.injuries) 0 = _
  rw [List.sum_eq_foldl, List.foldl_map]

/-- C3: a submission attempt whose draft description trims to the empty
string is rejected: the Record button is disabled and the state (hence the
record list) is unchanged. -/
theorem empty_description_rejected (now : Nat) (tstamp : String)
    (s : BoardState) (h : trimJS s.newAccident.description = "") :
    recordButtonDisabled s = true ∧ clickRecordButton now tstamp s = s := by
  have hd : recordButtonDisabled s = true := by
    simp [recordButtonDisabled, h]
  exact ⟨hd, by simp [clickRecordButton, hd]⟩

/-- Witness for C3: a whitespace-only description, with a pending click
present, produces no new record. -/
theorem empty_description_rejected_witness :
    trimJS (setDescription "   " (handleMapClick ⟨1, 2⟩
        (initialState "a" "b" "c" "d"))).newAccident.description = "" ∧
    clickRecordButton 9 "t9" (setDescription "   " (handleMapClick ⟨1, 2⟩
        (initialState "a" "b" "c" "d"))) =
      setDescription "   " (handleMapClick ⟨1, 2⟩
        (initialState "a" "b" "c" "d")) :=
  ⟨by decide,
    (empty_description_rejected 9 "t9"
      (setDescription "   " (handleMapClick ⟨1, 2⟩
        (initialState "a" "b" "c" "d"))) (by decide)).2⟩

/-- C4 counterexample: the record list of a fresh session is not empty — the
source seeds it with four sample accidents whose coordinates are free-typed
literals, not captured map clicks. -/
theorem fresh_session_not_empty :
    (initialState "a" "b" "c" "d").accidents ≠ [] := by
  simp [initialState, initialAccidents]

/-- C4 amended: a fresh session starts with the four seeded sample records;
thereafter, the only event that changes the record list is a dialog
submission, which appends one record whose coordinates are the pending
click coordinate and whose other fields come from the draft form. -/
theorem accidents_seeded_then_click_sourced :
    (∀ t1 t2 t3 t4 : String,
      (initialState t1 t2 t3 t4).accidents = initialAccidents t1 t2 t3 t4 ∧
      (initialAccidents t1 t2 t3 t4).length = 4) ∧
    (∀ s s' : BoardState, Step s s' →
      s'.accidents = s.accidents ∨
      ∃ (c : Coord) (now : Nat) (tstamp : String),
        s.tempMarkerPosition = some c ∧
        s'.accidents = s.accidents ++
          [{ id := toString now, latitude := c.lat, longitude := c.lng,
             timestamp := tstamp, severity := s.newAccident.severity,
             description := s.newAccident.description,
             injuries := s.newAccident.injuries }]) := by
  constructor
  · intro t1 t2 t3 t4
    exact ⟨rfl, rfl⟩
  · intro s s' hstep
    cases hstep with
    | mapClick c s => exact Or.inl rfl
    | cancel s => exact Or.inl rfl
    | openChange b s => exact Or.inl rfl
    | sev v s => exact Or.inl rfl
    | desc d s => exact Or.inl rfl
    | inj raw s => exact Or.inl rfl
    | submit now tstamp s =>
        unfold clickRecordButton
        by_cases hdis : recordButtonDisabled s = true
        · rw [if_pos hdis]
          exact Or.inl rfl
        · rw [if_neg hdis]
          unfold handleAddAccident
          cases hmp : s.tempMarkerPosition with
          | none => exact Or.inl rfl
          | some c => exact Or.inr ⟨c, now, tstamp, rfl, rfl⟩

/-- Witness for C4 amended: the cancel event from the mount state leaves the
record list unchanged (the left disjunct of the step case). -/
theorem accidents_seeded_then_click_sourced_witness :
    (cancelDialog (initialState "a" "b" "c" "d")).accidents =
      (initialState "a" "b" "c" "d").accidents ∨
    ∃ (c : Coord) (now : Nat) (tstamp : String),
      (initialState "a" "b" "c" "d").tempMarkerPosition = some c ∧
      (cancelDialog (initialState "a" "b" "c" "d")).accidents =
        (initialState "a" "b" "c" "d").accidents ++
          [{ id := toString now, latitude := c.lat, longitude := c.lng,
             timestamp := tstamp,
             severity := (initialState "a" "b" "c" "d").newAccident.severity,
             description :=
               (initialState "a" "b" "c" "d").newAccident.description,
             injuries :=
               (initialState "a" "b" "c" "d").newAccident.injuries }] :=
  accidents_seeded_then_click_sourced.2 _ _
    (Step.cancel (initialState "a" "b" "c" "d"))

/-- C5 counterexample: after a map click at (1, 2) and typing description
"x", the Cancel button leaves both the pending click and the draft form
exactly as they were — it does not clear or reset them, contrary to the
claim. -/
theorem cancel_does_not_clear_draft_or_pending :
    (cancelDialog (setDescription "x" (handleMapClick ⟨1, 2⟩
        (initialState "a" "b" "c" "d")))).tempMarkerPosition ≠ none ∧
    (cancelDialog (setDescription "x" (handleMapClick ⟨1, 2⟩
        (initialState "a" "b" "c" "d")))).newAccident ≠ defaultNewAccident := by
  constructor
  · decide
  · decide

/-- C5 amended: the Cancel button closes the dialog and changes nothing
else: the record list, the pending click and the draft form are all left
unchanged (no record is created; the draft and pending click are only reset
by a successful submission, and the pending click is overwritten by the
next map click). -/
theorem cancel_closes_dialog_only (s : BoardState) :
    (cancelDialog s).showAddDialog = false ∧
    (cancelDialog s).accidents = s.accidents ∧
    (cancelDialog s).tempMarkerPosition = s.tempMarkerPosition ∧
    (cancelDialog s).newAccident = s.newAccident :=
  ⟨rfl, rfl, rfl, rfl⟩

/-- C6: when the pending click coordinate is absent, a submission is a
silent no-op: both the raw handler and the button-mediated attempt return
the state unchanged (no record, no flag change, no form change). -/
theorem submit_noop_without_pending (now : Nat) (tstamp : String)
    (s : BoardState) (h : s.tempMarkerPosition = none) :
    handleAddAccident now tstamp s = s ∧ clickRecordButton now tstamp s = s := by
  have hh : handleAddAccident now tstamp s = s := by
    unfold handleAddAccident
    rw [h]
  refine ⟨hh, ?_⟩
  unfold clickRecordButton
  by_cases hdis : recordButtonDisabled s = true
  · rw [if_pos hdis]
  · rw [if_neg hdis]
    exact hh

/-- Witness for C6: with a non-empty description but no pending click, the
submission attempt changes nothing. -/
theorem submit_noop_without_pending_witness :
    (setDescription "x" (initialState "a" "b" "c" "d")).tempMarkerPosition
        = none ∧
    clickRecordButton 7 "t7" (setDescription "x"
        (initialState "a" "b" "c" "d")) =
      setDescription "x" (initialState "a" "b" "c" "d") :=
  ⟨rfl,
    (submit_noop_without_pending 7 "t7"
      (setDescription "x" (initialState "a" "b" "c" "d")) rfl).2⟩

/-- C7 counterexample: ids are not unique at every reachable state — the id
is `Date.now().toString()`, so a submission whose clock value renders as
"1" collides with the seeded record id "1" (the same happens for two
submissions in the same millisecond), and the resulting reachable state
holds duplicate ids. -/
theorem duplicate_ids_reachable :
    Reachable (clickRecordButton 1 "t" (setDescription "x" (handleMapClick
        ⟨0, 0⟩ (initialState "a" "b" "c" "d")))) ∧
    ¬ ((clickRecordButton 1 "t" (setDescription "x" (handleMapClick ⟨0, 0⟩
        (initialState "a" "b" "c" "d")))).accidents.map
          (fun a => a.id)).Nodup :=
  ⟨Reachable.step
    (Reachable.step
      (Reachable.step (Reachable.init "a" "b" "c" "d")
        (Step.mapClick ⟨0, 0⟩ _))
      (Step.desc "x" _))
    (Step.submit 1 "t" _),
   by decide⟩

/-- C7 amended: ids are pairwise distinct in the initial state, and a
submission preserves pairwise distinctness of ids exactly when the decimal
string of its millisecond clock value is not already an id in the list;
submissions reusing an existing value (two adds in the same millisecond, or
a clock value colliding with a seeded id) can break uniqueness. -/
theorem add_preserves_id_nodup (now : Nat) (tstamp : String)
    (s : BoardState)
    (hn : (s.accidents.map (fun a => a.id)).Nodup)
    (hf : toString now ∉ s.accidents.map (fun a => a.id)) :
    ((clickRecordButton now tstamp s).accidents.map
      (fun a => a.id)).Nodup := by
  unfold clickRecordButton
  by_cases hdis : recordButtonDisabled s = true
  · rw [if_pos hdis]
    exact hn
  · rw [if_neg hdis]
    unfold handleAddAccident
    cases hmp : s.tempMarkerPosition with
    | none => exact hn
    | some c =>
        simp only [List.map_append, List.map_cons, List.map_nil,
          List.nodup_append, List.nodup_cons, List.nodup_nil,
          List.disjoint_singleton]
        exact ⟨hn, ⟨by simp, trivial⟩, hf⟩

/-- Witness for C7 amended: adding at clock value 5 (id "5") from the mount
state after a click and a description keeps the ids distinct. -/
theorem add_preserves_id_nodup_witness :
    ((setDescription "x" (handleMapClick ⟨0, 0⟩
        (initialState "a" "b" "c" "d"))).accidents.map
          (fun a => a.id)).Nodup ∧
    ((clickRecordButton 5 "t" (setDescription "x" (handleMapClick ⟨0, 0⟩
        (initialState "a" "b" "c" "d")))).accidents.map
          (fun a => a.id)).Nodup :=
  ⟨by decide,
    add_preserves_id_nodup 5 "t"
      (setDescription "x" (handleMapClick ⟨0, 0⟩
        (initialState "a" "b" "c" "d"))) (by decide) (by decide)⟩

/-- C8: typing "-5" in the injuries input passes `parseInt(...) || 0`
unchanged (only `NaN` is replaced by 0), so a submission stores a record
with a negative injuries count, contradicting the non-negativity the spec
states and the input's own `min="0"` attribute declares. -/
theorem negative_injuries_stored :
    ((clickRecordButton 1000 "t" (setInjuriesInput "-5" (setDescription
        "crash" (handleMapClick ⟨1, 2⟩
          (initialState "a" "b" "c" "d"))))).accidents.any
      (fun a => a.injuries < 0)) = true := by
  decide

/-- C9: the Token Gate's submit button is disabled exactly when the trimmed
input is empty; on submit it emits precisely the trimmed token (and nothing
when the trimmed token is empty); the Index page renders the Token Gate
exactly when the token state is the empty string. -/
theorem token_gate_contract (token : String) :
    (tokenSubmitDisabled token = true ↔ trimJS token = "") ∧
    tokenHandleSubmit token =
      (if trimJS token = "" then none else some (trimJS token)) ∧
    (indexShowsGate token = true ↔ token = "") := by
  refine ⟨by simp [tokenSubmitDisabled], ?_, by simp [indexShowsGate]⟩
  unfold tokenHandleSubmit
  by_cases h : trimJS token = ""
  · rw [if_pos h, if_pos (by simp [h] : (trimJS token == "") = true)]
  · rw [if_neg h, if_neg (by simp [h] : ¬ (trimJS token == "") = true)]

/-- C10: an injuries input that does not parse to a number (`parseInt`
yields `NaN`, e.g. an empty or non-numeric string) sets the draft injuries
field to 0 rather than storing `NaN` or rejecting the edit. -/
theorem injuries_nan_coerced_to_zero (raw : String) (s : BoardState)
    (h : parseIntJS raw = none) :
    (setInjuriesInput raw s).newAccident.injuries = 0 := by
  simp [setInjuriesInput, parseIntOr0, h]

/-- Witness for C10: typing "abc" yields a draft injuries value of 0. -/
theorem injuries_nan_coerced_to_zero_witness :
    parseIntJS "abc" = none ∧
    (setInjuriesInput "abc"
        (initialState "a" "b" "c" "d")).newAccident.injuries = 0 :=
  ⟨by decide,
    injuries_nan_coerced_to_zero "abc" (initialState "a" "b" "c" "d")
      (by decide)⟩

end GeoIncident
